import Mathlib

/-!
Verification development for the obsidian-local-rest-api plugin core
(src/main.ts): credential generation, certificate subject-alternative-name
assembly, the debounced change coalescer, the server orchestrator
(_refreshServerState / onunload) and the settings-tab edit handlers.

The TypeScript source is embedded shallowly: settings are a structure,
the certificate is a structure carrying the attributes the code sets,
listener sockets are handles with an id and requested endpoint, and the
orchestrator is a function from an environment (which bind or creation
steps fail) and a pre-state to an outcome that records the resulting
state, any uncaught asynchronous bind errors, and a trace of events.
-/

/-- Modelled from the spec: constants.ts is not part of src/; the spec says
the default binding host denotes loopback, and the loopback-equivalent
address used in certificate SAN lists. -/
def DefaultBindingHost : String := "127.0.0.1"

/-- Modelled from the spec: constants.ts is not part of src/; the spec says
the bearer token header name defaults to "Authorization". -/
def DefaultBearerTokenHeaderName : String := "Authorization"

/-- Entry of a certificate subject-alternative-name list, as built in
onload: type 7 carries an IP address, type 2 carries a DNS name. -/
structure AltNameEntry where
  type : Nat
  value : String
deriving DecidableEq, Repr

/-- Half of an RSA key pair: forge.pki.rsa.generateKeyPair(2048) is modelled
by its observable bit size plus the randomness that produced it. -/
structure RsaKey where
  bits : Nat
  seed : Nat
deriving DecidableEq, Repr

/-- Certificate as assembled in onload, keeping the attributes the code
sets: issuer and subject common name, serial number, validity window in
days, the digest used by certificate.sign, the public key, and the
subject-alternative-name extension. -/
structure Certificate where
  issuerCN : String
  subjectCN : String
  serialNumber : String
  publicKey : RsaKey
  notBefore : Nat
  notAfter : Nat
  signatureDigest : String
  subjectAltNames : List AltNameEntry
deriving DecidableEq, Repr

/-- Crypto triple stored in settings.crypto: certificate, private key and
public key (PEM serialisation is treated as the identity). -/
structure CryptoSettings where
  cert : Certificate
  privateKey : RsaKey
  publicKey : RsaKey
deriving DecidableEq, Repr

/-- Settings of the plugin (types.ts is summarised by its uses in main.ts):
optional fields are those the code guards with truthiness checks or
deletes. -/
structure LocalRestApiSettings where
  apiKey : String
  crypto : Option CryptoSettings
  port : Nat
  insecurePort : Nat
  bindingHost : Option String
  enableInsecureServer : Bool
  subjectAltNames : String
  authorizationHeaderName : Option String
deriving DecidableEq, Repr

/-- JavaScript truthiness of an optional string: undefined and the empty
string are falsy. -/
def jsTruthyStr : Option String → Bool
  | none => false
  | some s => !(s == "")

/-- Embedding of the JavaScript string split on a newline separator,
computed on the underlying character list. -/
def splitLines (s : String) : List String :=
  (s.data.splitOn '\n').map (fun cs => String.mk cs)

/-- Embedding of the JavaScript string trim: leading and trailing
whitespace characters are removed. -/
def jsTrim (s : String) : String :=
  String.mk
    (((s.data.dropWhile Char.isWhitespace).reverse.dropWhile
        Char.isWhitespace).reverse)

/-- Subject-alternative-name list assembled in onload lines 66 to 90: the
default binding host as an IP entry always; the configured binding host as
an IP entry when it is truthy and differs from "0.0.0.0"; one DNS entry per
non-blank line of the extra-hostnames text, trimmed. -/
def buildSubjectAltNames (s : LocalRestApiSettings) : List AltNameEntry :=
  let base : List AltNameEntry := [⟨7, DefaultBindingHost⟩]
  let withHost : List AltNameEntry :=
    if jsTruthyStr s.bindingHost && !(s.bindingHost == some "0.0.0.0") then
      base ++ [⟨7, s.bindingHost.getD ""⟩]
    else base
  let dnsEntries : List AltNameEntry :=
    if !(s.subjectAltNames == "") then
      ((splitLines s.subjectAltNames).filter (fun n => !(jsTrim n == ""))).map
        (fun n => AltNameEntry.mk 2 (jsTrim n))
    else []
  withHost ++ dnsEntries

/-- API key generation in onload lines 42 to 49: a 256-bit digest of 128
random bytes, hex encoded; the digest computation is abstracted, keeping
only that the result is a fresh non-empty token determined by the
randomness drawn. -/
def generateApiKey (randomness : Nat) : String :=
  "sha256hex:" ++ toString randomness

/-- Identity generation in onload lines 50 to 142: a 2048-bit key pair, a
self-signed certificate (issuer equals subject, common name "Obsidian Local
REST"), serial number "1", valid from today for 365 days, signed with
sha256, carrying the subject-alternative-name list built from settings. -/
def generateIdentity (s : LocalRestApiSettings) (today : Nat) (seed : Nat) :
    CryptoSettings :=
  let expiry : Nat := today + 365
  let keypair : RsaKey := ⟨2048, seed⟩
  let certificate : Certificate :=
    { issuerCN := "Obsidian Local REST"
      subjectCN := "Obsidian Local REST"
      serialNumber := "1"
      publicKey := keypair
      notBefore := today
      notAfter := expiry
      signatureDigest := "sha256"
      subjectAltNames := buildSubjectAltNames s }
  { cert := certificate, privateKey := keypair, publicKey := keypair }

/-- Lazy population in onload: if apiKey is falsy a fresh key is generated
and saved; then if crypto is absent a fresh identity is generated and
saved. -/
def onloadPopulate (s : LocalRestApiSettings) (today seed apiSeed : Nat) :
    LocalRestApiSettings :=
  let s1 :=
    if s.apiKey == "" then { s with apiKey := generateApiKey apiSeed } else s
  match s1.crypto with
  | none => { s1 with crypto := some (generateIdentity s1 today seed) }
  | some _ => s1

/-- Re-generate Certificates button (settings tab lines 343 to 359): delete
settings.crypto only, then save and reload the plugin. -/
def regenerateCertificates (s : LocalRestApiSettings) : LocalRestApiSettings :=
  { s with crypto := none }

/-- Reload after the Re-generate Certificates button: unload followed by
load runs onload, which lazily repopulates the deleted fields. -/
def regenerateCertificatesAndReload (s : LocalRestApiSettings)
    (today seed apiSeed : Nat) : LocalRestApiSettings :=
  onloadPopulate (regenerateCertificates s) today seed apiSeed

/-- Listener handle owned by the orchestrator: a fresh id plus the host and
port it was asked to bind. -/
structure Listener where
  id : Nat
  host : String
  port : Nat
deriving DecidableEq, Repr

/-- Error thrown synchronously out of _refreshServerState: reading
settings.crypto.privateKey when crypto is absent, or https.createServer
rejecting malformed key or certificate material. -/
inductive RefreshError where
  | cryptoMissing
  | secureCreateFailed
deriving DecidableEq, Repr

/-- Asynchronous listen failure (for example the port is already in use):
the code attaches no error handler to either server, so the error event
surfaces uncaught after refresh has returned. -/
inductive ListenError where
  | secureBindFailed
  | insecureBindFailed
deriving DecidableEq, Repr

/-- Environment describing which external failure conditions hold during
one run of _refreshServerState. -/
structure Env where
  secureCreateThrows : Bool
  secureBindFails : Bool
  insecureBindFails : Bool
deriving DecidableEq, Repr

/-- Environment in which no creation or bind step fails. -/
def noFailureEnv : Env := ⟨false, false, false⟩

/-- Orchestrator state: the two listener fields of the plugin, a counter
supplying fresh handle ids, and the ids of handles closed so far. -/
structure ServerState where
  secureServer : Option Listener
  insecureServer : Option Listener
  nextId : Nat
  closed : List Nat
deriving DecidableEq, Repr

/-- Orchestrator state at plugin start: no listener bound. -/
def initialServerState : ServerState := ⟨none, none, 0, []⟩

/-- Event of one run of _refreshServerState, in execution order. -/
inductive REvent where
  | closedSecure (id : Nat)
  | createdSecure (id : Nat)
  | closedInsecure (id : Nat)
  | evaluatedInsecureEnabled (enabled : Bool)
  | createdInsecure (id : Nat)
deriving DecidableEq, Repr

/-- Discriminator for the createdSecure event. -/
def isCreatedSecure : REvent → Bool
  | .createdSecure _ => true
  | _ => false

/-- Discriminator for the closedSecure event. -/
def isClosedSecure : REvent → Bool
  | .closedSecure _ => true
  | _ => false

/-- Discriminator for the evaluatedInsecureEnabled event. -/
def isEvalInsecure : REvent → Bool
  | .evaluatedInsecureEnabled _ => true
  | _ => false

/-- Outcome of one run of _refreshServerState: either a synchronous error
was thrown to the caller, or the call returned, possibly with uncaught
asynchronous bind errors pending; both record the resulting orchestrator
state and the event trace. -/
inductive RefreshOutcome where
  | thrown (e : RefreshError) (st : ServerState) (tr : List REvent)
  | returned (st : ServerState) (uncaught : List ListenError) (tr : List REvent)
deriving DecidableEq, Repr

/-- Trace of a refresh outcome. -/
def RefreshOutcome.trace : RefreshOutcome → List REvent
  | .thrown _ _ tr => tr
  | .returned _ _ tr => tr

/-- Orchestrator state of a refresh outcome. -/
def RefreshOutcome.state : RefreshOutcome → ServerState
  | .thrown _ st _ => st
  | .returned st _ _ => st

/-- Uncaught asynchronous bind errors of a refresh outcome. -/
def RefreshOutcome.uncaught : RefreshOutcome → List ListenError
  | .thrown _ _ _ => []
  | .returned _ errs _ => errs

/-- Lines 161 to 164: if a secure listener is present, close it and null
the field. -/
def closeSecureStep (st : ServerState) : ServerState × List REvent :=
  match st.secureServer with
  | some l =>
    ({ st with secureServer := none, closed := l.id :: st.closed },
      [REvent.closedSecure l.id])
  | none => (st, [])

/-- Lines 179 to 182: if an insecure listener is present, close it and null
the field. -/
def closeInsecureStep (st : ServerState) : ServerState × List REvent :=
  match st.insecureServer with
  | some l =>
    ({ st with insecureServer := none, closed := l.id :: st.closed },
      [REvent.closedInsecure l.id])
  | none => (st, [])

/-- Embedding of _refreshServerState (lines 160 to 195). The secure
listener is closed if present; settings.crypto is read (absent crypto is a
thrown type error) and https.createServer may throw on malformed material,
in which case the error propagates to the caller with the insecure section
never reached; otherwise the new secure handle is stored and listen is
issued, whose failure only surfaces later as an uncaught error; then the
insecure listener is closed if present, enableInsecureServer is evaluated,
and if it is true a new insecure handle is stored and listen is issued. -/
def _refreshServerState (env : Env) (s : LocalRestApiSettings)
    (st0 : ServerState) : RefreshOutcome :=
  let p1 := closeSecureStep st0
  match s.crypto with
  | none => .thrown .cryptoMissing p1.1 p1.2
  | some _ =>
    if env.secureCreateThrows then .thrown .secureCreateFailed p1.1 p1.2
    else
      let host := s.bindingHost.getD DefaultBindingHost
      let lsec : Listener := ⟨p1.1.nextId, host, s.port⟩
      let st2 : ServerState :=
        { p1.1 with secureServer := some lsec, nextId := p1.1.nextId + 1 }
      let tr2 := p1.2 ++ [REvent.createdSecure lsec.id]
      let errs1 : List ListenError :=
        if env.secureBindFails then [.secureBindFailed] else []
      let p3 := closeInsecureStep st2
      let tr4 := tr2 ++ p3.2 ++
        [REvent.evaluatedInsecureEnabled s.enableInsecureServer]
      if s.enableInsecureServer then
        let lins : Listener := ⟨p3.1.nextId, host, s.insecurePort⟩
        .returned
          { p3.1 with insecureServer := some lins, nextId := p3.1.nextId + 1 }
          (errs1 ++ (if env.insecureBindFails then [.insecureBindFailed] else []))
          (tr4 ++ [REvent.createdInsecure lins.id])
      else .returned p3.1 errs1 tr4

/-- Outcome in which a listener-setup failure escapes the refresh boundary
uncaught: either a synchronous error was thrown to the caller, or the call
returned while an asynchronous bind error is left with no handler. -/
def propagatesUncaught (o : RefreshOutcome) : Prop :=
  (∃ e st tr, o = .thrown e st tr) ∨
    (∃ st errs tr, o = .returned st errs tr ∧ errs ≠ [])

/-- Outcome in which the orchestrator records a live secure listener even
though its bind failed. -/
def believesSecureLiveButBindFailed (o : RefreshOutcome) : Prop :=
  ∃ st errs tr, o = .returned st errs tr ∧ st.secureServer.isSome = true ∧
    ListenError.secureBindFailed ∈ errs

/-- Host and port pairs currently bound, secure then insecure. -/
def boundEndpoints (st : ServerState) :
    Option (String × Nat) × Option (String × Nat) :=
  (st.secureServer.map (fun l => (l.host, l.port)),
    st.insecureServer.map (fun l => (l.host, l.port)))

/-- External happening for the debounce model: a call of the wrapped
trigger with one argument, or plugin unload. -/
inductive PluginEvent where
  | trigger (t : Nat) (arg : Nat)
  | unload (t : Nat)
deriving DecidableEq, Repr

/-- State of the debounce closure of lines 149 to 158 together with the
record of when the wrapped action actually ran and when the plugin was
unloaded: pending is the single cancellable timer (fire time and the
argument captured by setTimeout). -/
structure DebounceRun where
  pending : Option (Nat × Nat)
  fired : List (Nat × Nat)
  unloadedAt : Option Nat
deriving DecidableEq, Repr

/-- Event-loop progress to an instant now: a pending timer whose fire time
has arrived runs first, executing the wrapped action with the captured
argument. -/
def flushTimer (st : DebounceRun) (now : Nat) : DebounceRun :=
  match st.pending with
  | some (f, a) =>
    if f ≤ now then
      { st with pending := none, fired := st.fired ++ [(f, a)] }
    else st
  | none => st

/-- One external happening. A trigger runs clearTimeout on the pending
timer and schedules the action at its own time plus the delay with its own
argument (lines 154 to 157). Unload closes the servers (lines 197 to 204)
but the code does not cancel the pending timer, so pending is kept. -/
def debounceStep (delay : Nat) (st : DebounceRun) (e : PluginEvent) :
    DebounceRun :=
  match e with
  | .trigger t a =>
    let st1 := flushTimer st t
    { st1 with pending := some (t + delay, a) }
  | .unload t =>
    let st1 := flushTimer st t
    { st1 with unloadedAt := some t }

/-- Complete run of the debounced wrapper over a time-ordered happening
list: after the last happening the event loop continues, so a still pending
timer eventually fires. -/
def debounceRun (delay : Nat) (events : List PluginEvent) : DebounceRun :=
  let final := events.foldl (debounceStep delay) ⟨none, [], none⟩
  match final.pending with
  | some (f, a) => { final with pending := none, fired := final.fired ++ [(f, a)] }
  | none => final

/-- Result of one settings-tab edit handler: the new settings, whether
saveSettings was called, and whether refreshServerState was triggered. -/
structure EditEffects where
  settings : LocalRestApiSettings
  saved : Bool
  refreshTriggered : Bool
deriving Repr

/-- Encrypted server port edit (lines 422 to 435): store the parsed port,
save, refresh. Parsing of the text field is abstracted into the
argument. -/
def portEdit (value : Nat) (s : LocalRestApiSettings) : EditEffects :=
  ⟨{ s with port := value }, true, true⟩

/-- Non-encrypted server port edit (lines 437 to 447): store the parsed
port, save, refresh. -/
def insecurePortEdit (value : Nat) (s : LocalRestApiSettings) : EditEffects :=
  ⟨{ s with insecurePort := value }, true, true⟩

/-- API key edit (lines 449 to 455): store, save, refresh. -/
def apiKeyEdit (value : String) (s : LocalRestApiSettings) : EditEffects :=
  ⟨{ s with apiKey := value }, true, true⟩

/-- Certificate Hostnames edit (lines 456 to 477): store the text, save,
and do not refresh. -/
def subjectAltNamesEdit (value : String) (s : LocalRestApiSettings) :
    EditEffects :=
  ⟨{ s with subjectAltNames := value }, true, false⟩

/-- Certificate edit (lines 478 to 486): store into crypto.cert, save,
refresh. When crypto is absent the JavaScript assignment would throw; no
claim exercises that case and the state is then left unchanged. -/
def certEdit (value : Certificate) (s : LocalRestApiSettings) : EditEffects :=
  ⟨(match s.crypto with
    | some c => { s with crypto := some { c with cert := value } }
    | none => s), true, true⟩

/-- Public key edit (lines 487 to 495): store into crypto.publicKey, save,
refresh. -/
def publicKeyEdit (value : RsaKey) (s : LocalRestApiSettings) : EditEffects :=
  ⟨(match s.crypto with
    | some c => { s with crypto := some { c with publicKey := value } }
    | none => s), true, true⟩

/-- Private key edit (lines 496 to 504): store into crypto.privateKey,
save, refresh. -/
def privateKeyEdit (value : RsaKey) (s : LocalRestApiSettings) : EditEffects :=
  ⟨(match s.crypto with
    | some c => { s with crypto := some { c with privateKey := value } }
    | none => s), true, true⟩

/-- Authorization Header edit (lines 505 to 518): a value other than the
default is stored, the default value deletes the key; save, refresh. -/
def authorizationHeaderEdit (value : String) (s : LocalRestApiSettings) :
    EditEffects :=
  ⟨(if value ≠ DefaultBearerTokenHeaderName then
      { s with authorizationHeaderName := some value }
    else { s with authorizationHeaderName := none }), true, true⟩

/-- Binding Host edit (lines 519 to 529): a value other than the default is
stored, the default value deletes the key; save, refresh. -/
def bindingHostEdit (value : String) (s : LocalRestApiSettings) :
    EditEffects :=
  ⟨(if value ≠ DefaultBindingHost then { s with bindingHost := some value }
    else { s with bindingHost := none }), true, true⟩

/-- Settings with the wildcard binding host and a blank line in the extra
hostnames, used as a concrete test input. -/
def wildcardHostSettings : LocalRestApiSettings :=
  { apiKey := "k", crypto := none, port := 27124, insecurePort := 27123,
    bindingHost := some "0.0.0.0", enableInsecureServer := false,
    subjectAltNames := "foo.local\n\nbar.local",
    authorizationHeaderName := none }

/-- Settings before the lazy population of onload: no crypto yet. -/
def freshSettings : LocalRestApiSettings :=
  { apiKey := "k", crypto := none, port := 27124, insecurePort := 27123,
    bindingHost := none, enableInsecureServer := false,
    subjectAltNames := "", authorizationHeaderName := none }

/-- Settings after the lazy population of onload at time 0. -/
def populatedSettings : LocalRestApiSettings :=
  { freshSettings with crypto := some (generateIdentity freshSettings 0 0) }

example :
    buildSubjectAltNames wildcardHostSettings =
      [⟨7, "127.0.0.1"⟩, ⟨2, "foo.local"⟩, ⟨2, "bar.local"⟩] := by decide

example :
    debounceRun 1000
      [.trigger 0 10, .trigger 100 11, .trigger 200 12] =
      ⟨none, [(1200, 12)], none⟩ := by decide

example :
    debounceRun 1000 [.trigger 0 7, .unload 500] =
      ⟨none, [(1000, 7)], some 500⟩ := by decide

/-- Helper for the coalescer: while every further trigger of a burst
arrives strictly within the delay of the previous one, the fold keeps
exactly one pending timer, scheduled from the last trigger seen, and fires
nothing. -/
theorem debounce_foldl_burst (delay : Nat) :
    ∀ (ts : List (Nat × Nat)) (t a : Nat) (f : List (Nat × Nat))
      (u : Option Nat),
      List.Chain' (fun p q => p.1 < q.1 ∧ q.1 < p.1 + delay) ((t, a) :: ts) →
      List.foldl (debounceStep delay) ⟨some (t + delay, a), f, u⟩
          (ts.map (fun p => PluginEvent.trigger p.1 p.2)) =
        ⟨some ((ts.getLastD (t, a)).1 + delay, (ts.getLastD (t, a)).2), f, u⟩ := by
  intro ts
  induction ts with
  | nil => intro t a f u _; rfl
  | cons q rest ih =>
    intro t a f u hchain
    obtain ⟨⟨hlt, hwin⟩, hchain2⟩ := List.chain'_cons.mp hchain
    have hstep :
        debounceStep delay ⟨some (t + delay, a), f, u⟩
            (PluginEvent.trigger q.1 q.2) =
          ⟨some (q.1 + delay, q.2), f, u⟩ := by
      simp only [debounceStep, flushTimer]
      rw [if_neg (by omega)]
    simp only [List.map_cons, List.foldl_cons, hstep]
    rw [List.getLastD_cons]
    exact ih q.1 q.2 f u hchain2

/-- C5: triggers at t equal 0, 100 and 200 with a 1000 ms window produce
exactly one execution of the action, at t equal 1200, with the arguments of
the last trigger; in general a burst of triggers each arriving strictly
within the window of the previous one collapses into one invocation at the
last trigger time plus the window, carrying the argument of the last
trigger;
and a trigger arriving while an execution is pending cancels it and
reschedules with its own argument. -/
theorem coalescer_collapses_burst (delay : Nat) (ts : List (Nat × Nat))
    (t a : Nat)
    (hchain : List.Chain' (fun p q => p.1 < q.1 ∧ q.1 < p.1 + delay)
      ((t, a) :: ts))
    (st : DebounceRun) (ft aa t2 a2 : Nat)
    (hp : st.pending = some (ft, aa)) (hlt : t2 < ft) :
    debounceRun 1000 [.trigger 0 10, .trigger 100 11, .trigger 200 12] =
      ⟨none, [(1200, 12)], none⟩ ∧
    (debounceRun delay
        (((t, a) :: ts).map (fun p => PluginEvent.trigger p.1 p.2))).fired =
      [((ts.getLastD (t, a)).1 + delay, (ts.getLastD (t, a)).2)] ∧
    debounceStep delay st (.trigger t2 a2) =
      { st with pending := some (t2 + delay, a2) } := by
  refine ⟨by decide, ?_, ?_⟩
  · simp only [debounceRun, List.map_cons, List.foldl_cons]
    have hfirst :
        debounceStep delay ⟨none, [], none⟩ (PluginEvent.trigger t a) =
          ⟨some (t + delay, a), [], none⟩ := by
      simp [debounceStep, flushTimer]
    rw [hfirst, debounce_foldl_burst delay ts t a [] none hchain]
    rfl
  · simp only [debounceStep, flushTimer, hp]
    rw [if_neg (by omega)]

/-- Witness for the coalescer theorem at a concrete burst. -/
theorem coalescer_collapses_burst_witness :
    (debounceRun 1000
        (([((0 : Nat), (10 : Nat)), (100, 11), (200, 12)]).map
          (fun p => PluginEvent.trigger p.1 p.2))).fired =
      [(1200, 12)] :=
  (coalescer_collapses_burst 1000 [(100, 11), (200, 12)] 0 10
    (by simp [List.chain'_cons])
    ⟨some (5, 1), [], none⟩ 5 1 3 2 rfl (by omega)).2.1

/-- C7: the code keeps the debounce timer pending across onunload, so a
refresh triggered before unload still executes after the plugin was torn
down: with a 1000 ms window, a trigger at t equal 0 followed by unload at t
equal 500 still fires the wrapped action at t equal 1000. -/
theorem pending_refresh_fires_after_unload :
    (debounceRun 1000 [.trigger 0 7, .unload 500]).unloadedAt = some 500 ∧
    (debounceRun 1000 [.trigger 0 7, .unload 500]).fired = [(1000, 7)] ∧
    ∀ p ∈ (debounceRun 1000 [.trigger 0 7, .unload 500]).fired,
      500 < p.1 := by decide

/-- C6: generateIdentity produces a 2048-bit key pair and a self-signed
certificate whose issuer equals its subject, valid from the generation time
for 365 days, signed with sha256, and carrying the fixed serial number "1"
on every regeneration. -/
theorem identity_attributes (s s2 : LocalRestApiSettings)
    (today today2 seed seed2 : Nat) :
    (generateIdentity s today seed).cert.issuerCN =
      (generateIdentity s today seed).cert.subjectCN ∧
    (generateIdentity s today seed).privateKey.bits = 2048 ∧
    (generateIdentity s today seed).publicKey.bits = 2048 ∧
    (generateIdentity s today seed).cert.publicKey =
      (generateIdentity s today seed).publicKey ∧
    (generateIdentity s today seed).cert.notBefore = today ∧
    (generateIdentity s today seed).cert.notAfter = today + 365 ∧
    (generateIdentity s today seed).cert.signatureDigest = "sha256" ∧
    (generateIdentity s today seed).cert.serialNumber = "1" ∧
    (generateIdentity s2 today2 seed2).cert.serialNumber =
      (generateIdentity s today seed).cert.serialNumber :=
  ⟨rfl, rfl, rfl, rfl, rfl, rfl, rfl, rfl, rfl⟩

/-- C4 counterexample: with binding host "0.0.0.0" the subject-alternative-
name list does not contain the configured binding host as an IP entry, so
the list does not always contain the configured binding host. -/
theorem san_wildcard_host_not_included :
    buildSubjectAltNames wildcardHostSettings =
      [⟨7, "127.0.0.1"⟩, ⟨2, "foo.local"⟩, ⟨2, "bar.local"⟩] ∧
    AltNameEntry.mk 7 "0.0.0.0" ∉ buildSubjectAltNames wildcardHostSettings := by
  decide

/-- C4 amended: the subject-alternative-name list always contains the
default loopback binding host as an IP entry; it additionally contains the
configured binding host as an IP entry when that host is set, non-empty and
different from "0.0.0.0"; and its DNS entries are exactly one per non-blank
line of the extra-hostnames text, trimmed. -/
theorem san_membership (s : LocalRestApiSettings) :
    AltNameEntry.mk 7 DefaultBindingHost ∈ buildSubjectAltNames s ∧
    (∀ h, s.bindingHost = some h → h ≠ "" → h ≠ "0.0.0.0" →
      AltNameEntry.mk 7 h ∈ buildSubjectAltNames s) ∧
    (buildSubjectAltNames s).filter (fun e => e.type == 2) =
      ((splitLines s.subjectAltNames).filter (fun n => !(jsTrim n == ""))).map
        (fun n => AltNameEntry.mk 2 (jsTrim n)) := by
  refine ⟨?_, ?_, ?_⟩
  · simp only [buildSubjectAltNames]
    split <;> simp
  · intro h hb hne hnz
    have hcond :
        (jsTruthyStr s.bindingHost && !(s.bindingHost == some "0.0.0.0")) =
          true := by
      rw [hb]
      simp [jsTruthyStr, hne, hnz]
    simp only [buildSubjectAltNames, hcond, if_true, hb]
    simp [jsTruthyStr, hne, hnz]
  · cases hc1 : (jsTruthyStr s.bindingHost &&
        !(s.bindingHost == some "0.0.0.0")) <;>
      cases hc2 : (s.subjectAltNames == "")
    case false.true =>
      have hs0 : s.subjectAltNames = "" := by simpa using hc2
      simp [buildSubjectAltNames, hc1, hs0]
      decide
    case true.true =>
      have hs0 : s.subjectAltNames = "" := by simpa using hc2
      simp [buildSubjectAltNames, hc1, hs0]
      decide
    case false.false | true.false =>
      simp only [buildSubjectAltNames, hc1, hc2]
      simp [List.filter_append, List.filter_map, Function.comp_def]

/-- Witness for the subject-alternative-name membership theorem. -/
theorem san_membership_witness :
    AltNameEntry.mk 7 "192.168.1.5" ∈
      buildSubjectAltNames { wildcardHostSettings with
        bindingHost := some "192.168.1.5" } :=
  (san_membership _).2.1 "192.168.1.5" rfl (by decide) (by decide)

/-- C8: the certificate-only regeneration deletes settings.crypto and
reloads; after the reload the crypto triple is freshly generated while
apiKey and every other settings field are unchanged, so apiKey and crypto
are independent. -/
theorem regenerate_certificates_preserves_apiKey (s : LocalRestApiSettings)
    (today seed apiSeed : Nat) (hk : s.apiKey ≠ "") :
    (regenerateCertificatesAndReload s today seed apiSeed).apiKey =
      s.apiKey ∧
    (regenerateCertificatesAndReload s today seed apiSeed).crypto =
      some (generateIdentity { s with crypto := none } today seed) ∧
    (regenerateCertificatesAndReload s today seed apiSeed).port = s.port ∧
    (regenerateCertificatesAndReload s today seed apiSeed).insecurePort =
      s.insecurePort ∧
    (regenerateCertificatesAndReload s today seed apiSeed).bindingHost =
      s.bindingHost ∧
    (regenerateCertificatesAndReload s today seed apiSeed).enableInsecureServer =
      s.enableInsecureServer ∧
    (regenerateCertificatesAndReload s today seed apiSeed).subjectAltNames =
      s.subjectAltNames ∧
    (regenerateCertificatesAndReload s today seed apiSeed).authorizationHeaderName =
      s.authorizationHeaderName := by
  have hbeq : (s.apiKey == "") = false := by
    simp [hk]
  simp [regenerateCertificatesAndReload, onloadPopulate,
    regenerateCertificates, hbeq]

/-- Witness for the regeneration theorem at concrete settings. -/
theorem regenerate_certificates_preserves_apiKey_witness :
    (regenerateCertificatesAndReload populatedSettings 3 4 5).apiKey =
      populatedSettings.apiKey ∧
    (regenerateCertificatesAndReload populatedSettings 3 4 5).crypto =
      some (generateIdentity { populatedSettings with crypto := none } 3 4) :=
  ⟨(regenerate_certificates_preserves_apiKey populatedSettings 3 4 5
      (by decide)).1,
    (regenerate_certificates_preserves_apiKey populatedSettings 3 4 5
      (by decide)).2.1⟩

/-- C9: editing the Authorization Header or the Binding Host to exactly the
default value deletes the stored key instead of setting it, and editing to
any other value stores that value; consequently the stored settings never
explicitly contain the default value for those fields. -/
theorem default_valued_edits_delete_key (value : String)
    (s : LocalRestApiSettings) :
    (authorizationHeaderEdit value s).settings.authorizationHeaderName ≠
      some DefaultBearerTokenHeaderName ∧
    (value = DefaultBearerTokenHeaderName →
      (authorizationHeaderEdit value s).settings.authorizationHeaderName =
        none) ∧
    (value ≠ DefaultBearerTokenHeaderName →
      (authorizationHeaderEdit value s).settings.authorizationHeaderName =
        some value) ∧
    (bindingHostEdit value s).settings.bindingHost ≠
      some DefaultBindingHost ∧
    (value = DefaultBindingHost →
      (bindingHostEdit value s).settings.bindingHost = none) ∧
    (value ≠ DefaultBindingHost →
      (bindingHostEdit value s).settings.bindingHost = some value) := by
  constructor
  · by_cases h : value = DefaultBearerTokenHeaderName <;>
      simp [authorizationHeaderEdit, h]
  refine ⟨?_, ?_, ?_, ?_, ?_⟩
  · intro h; simp [authorizationHeaderEdit, h]
  · intro h; simp [authorizationHeaderEdit, h]
  · by_cases h : value = DefaultBindingHost <;> simp [bindingHostEdit, h]
  · intro h; simp [bindingHostEdit, h]
  · intro h; simp [bindingHostEdit, h]

/-- Witness for the default-valued edit theorem at the default values. -/
theorem default_valued_edits_delete_key_witness :
    (authorizationHeaderEdit "Authorization" freshSettings).settings.authorizationHeaderName =
      none ∧
    (bindingHostEdit "127.0.0.1" freshSettings).settings.bindingHost = none :=
  ⟨(default_valued_edits_delete_key "Authorization" freshSettings).2.1 rfl,
    (default_valued_edits_delete_key "127.0.0.1" freshSettings).2.2.2.2.1 rfl⟩

/-- C10: editing the Certificate Hostnames saves the new text but, unlike
every other advanced-setting edit, does not trigger a server refresh and
leaves the stored crypto triple (hence the active certificate) unchanged;
the new hostnames reach a certificate only through an explicit
regeneration, whose subject-alternative-name list is built from the edited
text. -/
theorem subjectAltNames_edit_saves_without_refresh (v : String) (n : Nat)
    (c : Certificate) (rk : RsaKey) (s : LocalRestApiSettings)
    (today seed apiSeed : Nat) :
    subjectAltNamesEdit v s =
      ⟨{ s with subjectAltNames := v }, true, false⟩ ∧
    (subjectAltNamesEdit v s).settings.crypto = s.crypto ∧
    (portEdit n s).refreshTriggered = true ∧
    (insecurePortEdit n s).refreshTriggered = true ∧
    (apiKeyEdit v s).refreshTriggered = true ∧
    (certEdit c s).refreshTriggered = true ∧
    (publicKeyEdit rk s).refreshTriggered = true ∧
    (privateKeyEdit rk s).refreshTriggered = true ∧
    (authorizationHeaderEdit v s).refreshTriggered = true ∧
    (bindingHostEdit v s).refreshTriggered = true ∧
    ∃ c2,
      (regenerateCertificatesAndReload (subjectAltNamesEdit v s).settings
          today seed apiSeed).crypto = some c2 ∧
      c2.cert.subjectAltNames =
        buildSubjectAltNames { s with subjectAltNames := v, crypto := none } := by
  refine ⟨rfl, rfl, rfl, rfl, rfl, rfl, rfl, rfl, rfl, rfl, ?_⟩
  simp only [regenerateCertificatesAndReload, onloadPopulate,
    regenerateCertificates, subjectAltNamesEdit]
  by_cases h : ({ s with subjectAltNames := v }.apiKey == "") = true
  · rw [if_pos h]
    exact ⟨_, rfl, rfl⟩
  · rw [if_neg h]
    exact ⟨_, rfl, rfl⟩

/-- C1 counterexample: with valid settings, a secure-listener creation
failure (malformed key or certificate material) is thrown out of
_refreshServerState to its caller rather than caught at the refresh
boundary, and an asynchronous bind failure (port already in use) leaves the
orchestrator recording a live secure listener while the error surfaces
uncaught. -/
theorem refresh_failure_escapes_boundary :
    propagatesUncaught
      (_refreshServerState ⟨true, false, false⟩ populatedSettings
        initialServerState) ∧
    believesSecureLiveButBindFailed
      (_refreshServerState ⟨false, true, false⟩ populatedSettings
        initialServerState) := by
  constructor
  · exact Or.inl ⟨.secureCreateFailed, _, _, rfl⟩
  · exact ⟨_, _, _, rfl, rfl, by decide⟩

/-- C1 amended: listener-setup failures are not caught at the refresh
boundary. A synchronous secure-listener creation failure propagates as a
thrown error to the caller of refresh, with the secure listener closed and
the insecure listener left exactly as before the call; an asynchronous
secure bind failure leaves refresh returning normally with the orchestrator
recording the secure listener as live while the bind error is pending
uncaught, the insecure listener still reconciled to its desired state. -/
theorem refresh_failure_propagation (env : Env) (s : LocalRestApiSettings)
    (st : ServerState) :
    (env.secureCreateThrows = true → s.crypto.isSome = true →
      ∃ st2, _refreshServerState env s st =
          .thrown .secureCreateFailed st2 (closeSecureStep st).2 ∧
        st2.insecureServer = st.insecureServer ∧ st2.secureServer = none) ∧
    (env.secureCreateThrows = false → env.secureBindFails = true →
      s.crypto.isSome = true →
      ∃ st2 errs tr, _refreshServerState env s st = .returned st2 errs tr ∧
        st2.secureServer.isSome = true ∧
        ListenError.secureBindFailed ∈ errs ∧
        (s.enableInsecureServer = true → st2.insecureServer.isSome = true) ∧
        (s.enableInsecureServer = false → st2.insecureServer = none)) := by
  constructor
  · intro hct hc
    obtain ⟨c, hc2⟩ := Option.isSome_iff_exists.mp hc
    cases hs : st.secureServer <;>
      simp [_refreshServerState, closeSecureStep, hc2, hct, hs]
  · intro hct hbf hc
    obtain ⟨c, hc2⟩ := Option.isSome_iff_exists.mp hc
    cases hs : st.secureServer <;> cases hi : st.insecureServer <;>
      cases he : s.enableInsecureServer <;>
      simp [_refreshServerState, closeSecureStep, closeInsecureStep,
        hc2, hct, hbf, hs, hi, he] <;>
      exact ⟨_, _, ⟨rfl, rfl⟩, rfl, by simp, by simp⟩

/-- C2: whenever refresh returns with enableInsecureServer false, no
insecure listener is bound and a previously bound one has been closed; and
in every execution of refresh the secure listener is closed (when one was
bound) and re-created strictly before the desired state of the insecure
listener is evaluated, which in a thrown execution is never evaluated at
all. -/
theorem insecure_disabled_and_secure_first (env : Env)
    (s : LocalRestApiSettings) (st : ServerState) :
    (∀ st2 errs tr, _refreshServerState env s st = .returned st2 errs tr →
      (s.enableInsecureServer = false →
        st2.insecureServer = none ∧
        ∀ l, st.insecureServer = some l → l.id ∈ st2.closed) ∧
      ∃ pre post,
        tr = pre ++
          REvent.evaluatedInsecureEnabled s.enableInsecureServer :: post ∧
        pre.any isCreatedSecure = true ∧
        (∀ l, st.secureServer = some l → REvent.closedSecure l.id ∈ pre) ∧
        post.all
          (fun e => !(isEvalInsecure e || isCreatedSecure e ||
            isClosedSecure e)) = true) ∧
    (∀ e st2 tr, _refreshServerState env s st = .thrown e st2 tr →
      ∀ b, REvent.evaluatedInsecureEnabled b ∉ tr) := by
  constructor
  · intro st2 errs tr heq
    cases hc : s.crypto with
    | none => simp [_refreshServerState, hc] at heq
    | some c =>
      cases hct : env.secureCreateThrows with
      | true => simp [_refreshServerState, hct, hc] at heq
      | false =>
        cases hs : st.secureServer <;> cases hi : st.insecureServer <;>
          cases he : s.enableInsecureServer <;>
          simp [_refreshServerState, closeSecureStep, closeInsecureStep,
            hc, hct, hs, hi, he] at heq <;>
          obtain ⟨hst2, herrs, htr⟩ := heq <;>
          subst hst2 herrs htr <;>
          refine ⟨by simp, ?_⟩ <;>
          first
            | (refine ⟨[_], [], rfl, ?_, ?_, ?_⟩ <;>
                simp [isCreatedSecure, isClosedSecure, isEvalInsecure])
            | (refine ⟨[_], [_], rfl, ?_, ?_, ?_⟩ <;>
                simp [isCreatedSecure, isClosedSecure, isEvalInsecure])
            | (refine ⟨[_, _], [], rfl, ?_, ?_, ?_⟩ <;>
                simp [isCreatedSecure, isClosedSecure, isEvalInsecure])
            | (refine ⟨[_, _], [_], rfl, ?_, ?_, ?_⟩ <;>
                simp [isCreatedSecure, isClosedSecure, isEvalInsecure])
            | (refine ⟨[_, _, _], [], rfl, ?_, ?_, ?_⟩ <;>
                simp [isCreatedSecure, isClosedSecure, isEvalInsecure])
            | (refine ⟨[_, _, _], [_], rfl, ?_, ?_, ?_⟩ <;>
                simp [isCreatedSecure, isClosedSecure, isEvalInsecure])
  · intro e st2 tr heq
    cases hs : st.secureServer <;> cases hi : st.insecureServer <;>
      cases he : s.enableInsecureServer <;> cases hc : s.crypto <;>
      cases hct : env.secureCreateThrows <;>
      simp [_refreshServerState, closeSecureStep, closeInsecureStep,
        hs, hi, he, hc, hct] at heq <;>
      obtain ⟨he1, he2, he3⟩ := heq <;> subst he3 <;> simp

/-- Witness for the insecure-disabled and ordering theorem at a state with
both listeners previously bound. -/
theorem insecure_disabled_and_secure_first_witness :
    ((_refreshServerState noFailureEnv populatedSettings
        ⟨some ⟨0, "127.0.0.1", 27124⟩, some ⟨1, "127.0.0.1", 27123⟩, 2,
          []⟩).state).insecureServer = none ∧
    (1 : Nat) ∈
      ((_refreshServerState noFailureEnv populatedSettings
        ⟨some ⟨0, "127.0.0.1", 27124⟩, some ⟨1, "127.0.0.1", 27123⟩, 2,
          []⟩).state).closed := by
  have h :=
    ((insecure_disabled_and_secure_first noFailureEnv populatedSettings
      ⟨some ⟨0, "127.0.0.1", 27124⟩, some ⟨1, "127.0.0.1", 27123⟩, 2,
        []⟩).1 _ _ _
      (rfl :
        _refreshServerState noFailureEnv populatedSettings
            ⟨some ⟨0, "127.0.0.1", 27124⟩, some ⟨1, "127.0.0.1", 27123⟩, 2,
              []⟩ =
          .returned
            (_refreshServerState noFailureEnv populatedSettings
              ⟨some ⟨0, "127.0.0.1", 27124⟩, some ⟨1, "127.0.0.1", 27123⟩,
                2, []⟩).state
            (_refreshServerState noFailureEnv populatedSettings
              ⟨some ⟨0, "127.0.0.1", 27124⟩, some ⟨1, "127.0.0.1", 27123⟩,
                2, []⟩).uncaught
            (_refreshServerState noFailureEnv populatedSettings
              ⟨some ⟨0, "127.0.0.1", 27124⟩, some ⟨1, "127.0.0.1", 27123⟩,
                2, []⟩).trace)).1 rfl
  exact ⟨h.1, h.2 ⟨1, "127.0.0.1", 27123⟩ rfl⟩

/-- C3: refresh is idempotent. Two consecutive refreshes with unchanged
settings and no bind failures leave listeners bound to identical host and
port pairs; every handle created by the first refresh is closed by the
second, with the close event preceding the creation of its replacement in
the trace; and the handles open afterwards are fresh and mutually distinct,
so no listener is duplicated or leaked. -/
theorem refresh_idempotent (s : LocalRestApiSettings)
    (st stA stB : ServerState) (errsA errsB : List ListenError)
    (trA trB : List REvent)
    (h1 : _refreshServerState noFailureEnv s st = .returned stA errsA trA)
    (h2 : _refreshServerState noFailureEnv s stA = .returned stB errsB trB) :
    boundEndpoints stB = boundEndpoints stA ∧
    (∀ l, stA.secureServer = some l → l.id ∈ stB.closed ∧
      ∃ pre post k, trB = pre ++ REvent.createdSecure k :: post ∧
        REvent.closedSecure l.id ∈ pre) ∧
    (∀ l, stA.insecureServer = some l → l.id ∈ stB.closed ∧
      ∃ pre post k, trB = pre ++ REvent.createdInsecure k :: post ∧
        REvent.closedInsecure l.id ∈ pre) ∧
    (∀ l, stB.secureServer = some l → stA.nextId ≤ l.id) ∧
    (∀ l, stB.insecureServer = some l → stA.nextId ≤ l.id ∧
      ∀ l2, stB.secureServer = some l2 → l2.id ≠ l.id) := by
  cases hc : s.crypto with
  | none => simp [_refreshServerState, hc] at h1
  | some c =>
    cases hs : st.secureServer <;> cases hi : st.insecureServer <;>
      cases he : s.enableInsecureServer <;>
      simp [_refreshServerState, closeSecureStep, closeInsecureStep,
        noFailureEnv, hc, hs, hi, he] at h1 <;>
      obtain ⟨h1a, h1b, h1c⟩ := h1 <;> subst h1a h1b h1c <;>
      simp [_refreshServerState, closeSecureStep, closeInsecureStep,
        noFailureEnv, hc, he] at h2 <;>
      obtain ⟨h2a, h2b, h2c⟩ := h2 <;> subst h2a h2b h2c <;>
      refine ⟨by simp [boundEndpoints], ?_, ?_, ?_, ?_⟩ <;>
      first
        | (intro l hl; simp at hl; done)
        | (intro l hl; simp at hl; subst hl;
           refine ⟨by simp, ?_⟩;
           first
             | (refine ⟨[_], [_], _, rfl, ?_⟩; simp; done)
             | (refine ⟨[_], [_, _, _], _, rfl, ?_⟩; simp; done)
             | (refine ⟨[_, _, _, _], [], _, rfl, ?_⟩; simp; done))
        | (intro l hl; simp at hl; subst hl; simp; done)

/-- Witness for the idempotence theorem on two concrete consecutive
refreshes. -/
theorem refresh_idempotent_witness :
    boundEndpoints
        (_refreshServerState noFailureEnv populatedSettings
          (_refreshServerState noFailureEnv populatedSettings
            initialServerState).state).state =
      boundEndpoints
        (_refreshServerState noFailureEnv populatedSettings
          initialServerState).state :=
  (refresh_idempotent populatedSettings initialServerState
    (_refreshServerState noFailureEnv populatedSettings
      initialServerState).state
    (_refreshServerState noFailureEnv populatedSettings
      (_refreshServerState noFailureEnv populatedSettings
        initialServerState).state).state
    (_refreshServerState noFailureEnv populatedSettings
      initialServerState).uncaught
    (_refreshServerState noFailureEnv populatedSettings
      (_refreshServerState noFailureEnv populatedSettings
        initialServerState).state).uncaught
    (_refreshServerState noFailureEnv populatedSettings
      initialServerState).trace
    (_refreshServerState noFailureEnv populatedSettings
      (_refreshServerState noFailureEnv populatedSettings
        initialServerState).state).trace
    rfl rfl).1

/-- Witness for the failure-propagation theorem at concrete inputs. -/
theorem refresh_failure_propagation_witness :
    ∃ st2,
      _refreshServerState ⟨true, false, false⟩ populatedSettings
          initialServerState =
        .thrown .secureCreateFailed st2
          (closeSecureStep initialServerState).2 ∧
      st2.insecureServer = initialServerState.insecureServer ∧
      st2.secureServer = none :=
  (refresh_failure_propagation ⟨true, false, false⟩ populatedSettings
    initialServerState).1 rfl rfl
